import Mathlib

/-!
Verification of the payload model and create/update dispatch layer of
`services/netbox.py` (example-orchestrator-tnc).

The Python dataclasses become Lean structures; `asdict` becomes an explicit
`dict` function into a `Value` tree (Python scalars, `None`, lists, dicts).
The pynetbox client is modelled as an oracle (`Netbox`) describing the
external system's responses, and each dispatch operation returns its result
together with the list of external calls it performed, so that claims about
"exactly one call" or "no mutating call" are statable.
-/

/-- A Python value as it appears in a payload mapping produced by `asdict`:
ints, strings, booleans, `None`, lists, and nested dicts keyed by strings. -/
inductive Value where
  | vint (n : Int)
  | vstr (s : String)
  | vbool (b : Bool)
  | vnone
  | vlist (vs : List Value)
  | vmap (kvs : List (String × Value))

/-- `DevicePayload(NetboxPayload)`: base-class field `id` followed by
`site`, `device_type`, `device_role` and the four optional fields. -/
structure DevicePayload where
  id : Int
  site : Int
  device_type : Int
  device_role : Int
  name : Option String
  status : Option String
  primary_ip4 : Option Int
  primary_ip6 : Option Int
deriving DecidableEq

/-- `CableTerminationPayload`: `object_id` with `object_type` defaulting to
`"dcim.interface"`. -/
structure CableTerminationPayload where
  object_id : Int
  object_type : String := "dcim.interface"
deriving DecidableEq

/-- `CablePayload(NetboxPayload)`: base-class field `id` followed by
`status`, optional `description`, and the two termination lists. -/
structure CablePayload where
  id : Int
  status : String
  description : Option String
  a_terminations : List CableTerminationPayload
  b_terminations : List CableTerminationPayload
deriving DecidableEq

/-- `AvailablePrefixPayload`: not a `NetboxPayload` subclass; no `id` field;
`is_pool` defaults to `False`. -/
structure AvailablePrefixPayload where
  prefix_length : Int
  description : String
  is_pool : Option Bool := some false
deriving DecidableEq

/-- `AvailableIpPayload`: not a `NetboxPayload` subclass; no `id` field;
`assigned_object_type` defaults to `"dcim.interface"`, `status` to `"active"`. -/
structure AvailableIpPayload where
  description : String
  assigned_object_id : Int
  assigned_object_type : Option String := some "dcim.interface"
  status : Option String := some "active"
deriving DecidableEq

/-- The `NetboxPayload` class hierarchy: the two concrete subclasses that the
singledispatch `create`/`update` functions can receive. -/
inductive NetboxPayload where
  | device (d : DevicePayload)
  | cable (c : CablePayload)
deriving DecidableEq

/-- `Optional[str]` serialized by `asdict`: `None` becomes `vnone`. -/
def optStrV : Option String → Value
  | none => .vnone
  | some s => .vstr s

/-- `Optional[int]` serialized by `asdict`. -/
def optIntV : Option Int → Value
  | none => .vnone
  | some n => .vint n

/-- `Optional[bool]` serialized by `asdict`. -/
def optBoolV : Option Bool → Value
  | none => .vnone
  | some b => .vbool b

/-- `asdict` on a `CableTerminationPayload`: a dict of its two fields. -/
def CableTerminationPayload.toDict (t : CableTerminationPayload) : List (String × Value) :=
  [("object_id", .vint t.object_id), ("object_type", .vstr t.object_type)]

/-- The payload's `id` field (declared on the `NetboxPayload` base class). -/
def NetboxPayload.getId : NetboxPayload → Int
  | .device d => d.id
  | .cable c => c.id

/-- The payload's concrete class name, as Python's type introspection sees it. -/
def NetboxPayload.variantName : NetboxPayload → String
  | .device _ => "DevicePayload"
  | .cable _ => "CablePayload"

/-- `NetboxPayload.dict`, i.e. `dataclasses.asdict(self)`: all declared fields
in declaration order (base-class `id` first), recursing into nested dataclass
lists, with `None` fields included as `None`. -/
def NetboxPayload.dict : NetboxPayload → List (String × Value)
  | .device d =>
      [("id", .vint d.id), ("site", .vint d.site), ("device_type", .vint d.device_type),
       ("device_role", .vint d.device_role), ("name", optStrV d.name),
       ("status", optStrV d.status), ("primary_ip4", optIntV d.primary_ip4),
       ("primary_ip6", optIntV d.primary_ip6)]
  | .cable c =>
      [("id", .vint c.id), ("status", .vstr c.status), ("description", optStrV c.description),
       ("a_terminations", .vlist (c.a_terminations.map (fun t => .vmap t.toDict))),
       ("b_terminations", .vlist (c.b_terminations.map (fun t => .vmap t.toDict)))]

/-- `asdict` on an `AvailablePrefixPayload`. -/
def AvailablePrefixPayload.dict (p : AvailablePrefixPayload) : List (String × Value) :=
  [("prefix_length", .vint p.prefix_length), ("description", .vstr p.description),
   ("is_pool", optBoolV p.is_pool)]

/-- `asdict` on an `AvailableIpPayload`. -/
def AvailableIpPayload.dict (p : AvailableIpPayload) : List (String × Value) :=
  [("description", .vstr p.description), ("assigned_object_id", .vint p.assigned_object_id),
   ("assigned_object_type", optStrV p.assigned_object_type), ("status", optStrV p.status)]

/-- The external inventory system (pynetbox client), as a deterministic oracle:
what `endpoint.create(body)` answers (a new id, or a `RequestError` message),
whether `endpoint.get(id)` finds an object, and what `object.save()` returns. -/
structure Netbox where
  createResult : String → List (String × Value) → Except String Int
  existing : String → Int → Bool
  saveResult : String → Int → Bool

/-- The domain error taxonomy of the dispatch layer (spec section 7 names;
in the code the first two are raised as `ValueError`, the third by
`single_dispatch_base`). -/
inductive NbError where
  | validationError (msg : String)
  | notFoundError (id : Int) (endpointName : String)
  | unsupportedPayloadError (variantName : String)
deriving DecidableEq

/-- One call made to the external system. -/
inductive ExtCall where
  | createCall (ep : String) (body : List (String × Value))
  | getCall (ep : String) (id : Int)
  | updateCall (ep : String) (id : Int) (body : List (String × Value))
  | saveCall (ep : String) (id : Int)

/-- Whether a call mutates external state (`get` is the only read). -/
def ExtCall.isMutating : ExtCall → Bool
  | .getCall _ _ => false
  | _ => true

/-- The singledispatch create registrations: only `CablePayload` has a create
route, mapped to `netbox.dcim.cables`. -/
def createRoute : NetboxPayload → Option String
  | .cable _ => some "cables"
  | _ => none

/-- The singledispatch update registrations: `DevicePayload` is mapped to
`netbox.dcim.devices`, `CablePayload` to `netbox.dcim.cables`. -/
def updateRoute : NetboxPayload → Option String
  | .device _ => some "devices"
  | .cable _ => some "cables"

/-- Modelled from the spec: `utils.singledispatch.single_dispatch_base`, the
fallback body of the generic `create`/`update` functions, is repository code
not present under `src/`; per the spec it fails with `UnsupportedPayloadError`
naming the payload's concrete variant, making no external call. -/
def single_dispatch_base (p : NetboxPayload) : NbError :=
  .unsupportedPayloadError p.variantName

/-- `_create_object(payload, endpoint)`: one `endpoint.create(payload.dict())`
call; on success returns the created object's `id`; a `RequestError` is
re-raised as `ValueError("invalid NetboxPayload: " + exc.message)`. -/
def create_object (nb : Netbox) (p : NetboxPayload) (ep : String) :
    Except NbError Int × List ExtCall :=
  match nb.createResult ep p.dict with
  | .error msg =>
      (.error (.validationError ("invalid NetboxPayload: " ++ msg)), [.createCall ep p.dict])
  | .ok newId => (.ok newId, [.createCall ep p.dict])

/-- `_update_object(payload, endpoint)`: `endpoint.get(payload.id)`; if absent,
raise `ValueError` naming the id and the endpoint; otherwise
`object.update(payload.dict())` then return `object.save()`. -/
def update_object (nb : Netbox) (p : NetboxPayload) (ep : String) :
    Except NbError Bool × List ExtCall :=
  if nb.existing ep p.getId then
    (.ok (nb.saveResult ep p.getId),
     [.getCall ep p.getId, .updateCall ep p.getId p.dict, .saveCall ep p.getId])
  else
    (.error (.notFoundError p.getId ep), [.getCall ep p.getId])

/-- The generic `create` function: dispatch on the payload's concrete type via
the registration table, falling back to `single_dispatch_base`. -/
def create (nb : Netbox) (p : NetboxPayload) : Except NbError Int × List ExtCall :=
  match createRoute p with
  | some ep => create_object nb p ep
  | none => (.error (single_dispatch_base p), [])

/-- The generic `update` function: dispatch on the payload's concrete type via
the registration table, falling back to `single_dispatch_base`. -/
def update (nb : Netbox) (p : NetboxPayload) : Except NbError Bool × List ExtCall :=
  match updateRoute p with
  | some ep => update_object nb p ep
  | none => (.error (single_dispatch_base p), [])

/-- Decode an int field value. -/
def Value.asInt : Value → Option Int
  | .vint n => some n
  | _ => none

/-- Decode a string field value. -/
def Value.asStr : Value → Option String
  | .vstr s => some s
  | _ => none

/-- Decode an `Optional[str]` field value. -/
def Value.asOptStr : Value → Option (Option String)
  | .vstr s => some (some s)
  | .vnone => some none
  | _ => none

/-- Decode an `Optional[int]` field value. -/
def Value.asOptInt : Value → Option (Option Int)
  | .vint n => some (some n)
  | .vnone => some none
  | _ => none

/-- Decode an `Optional[bool]` field value. -/
def Value.asOptBool : Value → Option (Option Bool)
  | .vbool b => some (some b)
  | .vnone => some none
  | _ => none

/-- Rebuild a `CableTerminationPayload` from its serialized dict. -/
def CableTerminationPayload.ofVal : Value → Option CableTerminationPayload
  | .vmap m => do
      let ov ← m.lookup "object_id"
      let oid ← ov.asInt
      let tv ← m.lookup "object_type"
      let t ← tv.asStr
      pure ⟨oid, t⟩
  | _ => none

/-- Decode each element of a serialized termination list in order. -/
def decodeTermList : List Value → Option (List CableTerminationPayload)
  | [] => some []
  | v :: vs => do
      let t ← CableTerminationPayload.ofVal v
      let ts ← decodeTermList vs
      pure (t :: ts)

/-- Decode a serialized termination list. -/
def Value.asTermList : Value → Option (List CableTerminationPayload)
  | .vlist vs => decodeTermList vs
  | _ => none

/-- Rebuild a `DevicePayload` from a mapping, reading the same fields that
`asdict` wrote. -/
def DevicePayload.ofDict (m : List (String × Value)) : Option DevicePayload := do
  let i ← (← m.lookup "id").asInt
  let s ← (← m.lookup "site").asInt
  let dt ← (← m.lookup "device_type").asInt
  let dr ← (← m.lookup "device_role").asInt
  let n ← (← m.lookup "name").asOptStr
  let st ← (← m.lookup "status").asOptStr
  let p4 ← (← m.lookup "primary_ip4").asOptInt
  let p6 ← (← m.lookup "primary_ip6").asOptInt
  pure ⟨i, s, dt, dr, n, st, p4, p6⟩

/-- Rebuild a `CablePayload` from a mapping, reading the same fields that
`asdict` wrote. -/
def CablePayload.ofDict (m : List (String × Value)) : Option CablePayload := do
  let i ← (← m.lookup "id").asInt
  let s ← (← m.lookup "status").asStr
  let d ← (← m.lookup "description").asOptStr
  let a ← (← m.lookup "a_terminations").asTermList
  let b ← (← m.lookup "b_terminations").asTermList
  pure ⟨i, s, d, a, b⟩

/-- Rebuild an `AvailablePrefixPayload` from a mapping. -/
def AvailablePrefixPayload.ofDict (m : List (String × Value)) :
    Option AvailablePrefixPayload := do
  let l ← (← m.lookup "prefix_length").asInt
  let d ← (← m.lookup "description").asStr
  let ip ← (← m.lookup "is_pool").asOptBool
  pure ⟨l, d, ip⟩

/-- Rebuild an `AvailableIpPayload` from a mapping. -/
def AvailableIpPayload.ofDict (m : List (String × Value)) :
    Option AvailableIpPayload := do
  let d ← (← m.lookup "description").asStr
  let aoi ← (← m.lookup "assigned_object_id").asInt
  let aot ← (← m.lookup "assigned_object_type").asOptStr
  let st ← (← m.lookup "status").asOptStr
  pure ⟨d, aoi, aot, st⟩

/-- A scalar/primitive value (not a list and not a nested mapping). -/
def Value.isScalar : Value → Bool
  | .vlist _ => false
  | .vmap _ => false
  | _ => true

/-- A flat mapping whose values are all scalar. -/
def Value.isFlatMapOfScalars : Value → Bool
  | .vmap kvs => kvs.all fun kv => kv.2.isScalar
  | _ => false

/-- A value that is either scalar or a list of flat mappings of scalars (the
shape `asdict` produces for the cable termination lists). -/
def Value.isScalarOrMapList : Value → Bool
  | .vlist vs => vs.all Value.isFlatMapOfScalars
  | .vmap _ => false
  | _ => true

/-- The declared field names of each payload variant, in declaration order. -/
def NetboxPayload.fieldNames : NetboxPayload → List String
  | .device _ =>
      ["id", "site", "device_type", "device_role", "name", "status",
       "primary_ip4", "primary_ip6"]
  | .cable _ => ["id", "status", "description", "a_terminations", "b_terminations"]

/-- An external system that accepts every request: `create` assigns id 7,
every `get` finds the object, every `save` returns `True`. -/
def nbOK : Netbox :=
  ⟨fun _ _ => .ok 7, fun _ _ => true, fun _ _ => true⟩

/-- An external system where no object exists: every `get` returns `None`. -/
def nbMissing : Netbox :=
  ⟨fun _ _ => .ok 7, fun _ _ => false, fun _ _ => false⟩

/-- An external system that rejects every create with a `RequestError`. -/
def nbRej : Netbox :=
  ⟨fun _ _ => .error "bad field", fun _ _ => true, fun _ _ => true⟩

/-- The spec's update scenario payload: `DevicePayload(id=5, site=1,
device_type=2, device_role=3, name="rtr1", status="active",
primary_ip4=None, primary_ip6=None)`. -/
def dev5 : DevicePayload :=
  ⟨5, 1, 2, 3, some "rtr1", some "active", none, none⟩

/-- A concrete cable payload with one termination on each side. -/
def cbl9 : CablePayload :=
  ⟨9, "connected", none, [⟨10, "dcim.interface"⟩], [⟨20, "dcim.interface"⟩]⟩

/-- Reconstructing a termination from its own serialized dict recovers it. -/
theorem ofVal_toDict (t : CableTerminationPayload) :
    CableTerminationPayload.ofVal (Value.vmap t.toDict) = some t := by
  cases t; rfl

/-- Decoding a serialized termination list recovers the original list. -/
theorem decodeTermList_map (ts : List CableTerminationPayload) :
    decodeTermList (ts.map fun t => Value.vmap t.toDict) = some ts := by
  induction ts with
  | nil => rfl
  | cons t ts ih => simp [decodeTermList, ofVal_toDict, ih]

/-- Every serialized termination is a flat mapping of scalars. -/
theorem termList_flat (ts : List CableTerminationPayload) :
    ((ts.map fun t => Value.vmap t.toDict).all Value.isFlatMapOfScalars) = true := by
  induction ts with
  | nil => rfl
  | cons t ts ih =>
      have h : Value.isFlatMapOfScalars (Value.vmap t.toDict) = true := by cases t; rfl
      simp [List.all_cons, ih, h]

/-- A routed `update` against an existing id: get, then one external update
with the full `asdict` body, then save, whose result is returned. -/
theorem update_ok_eq (nb : Netbox) (p : NetboxPayload) (ep : String)
    (hroute : updateRoute p = some ep) (hex : nb.existing ep p.getId = true) :
    update nb p = (Except.ok (nb.saveResult ep p.getId),
      [ExtCall.getCall ep p.getId, ExtCall.updateCall ep p.getId p.dict,
       ExtCall.saveCall ep p.getId]) := by
  simp only [update, hroute, update_object, hex, if_true]

/-- Claim C1: for every payload variant with a registered create route (in the
code, `CablePayload`), `create` issues exactly one external create call, to
the variant's mapped endpoint, with `payload.dict()` as the body, and returns
the id the external system assigned to the created object. -/
theorem create_single_call_returns_id (nb : Netbox) (p : NetboxPayload) (ep : String)
    (newId : Int) (hroute : createRoute p = some ep)
    (hok : nb.createResult ep p.dict = Except.ok newId) :
    create nb p = (Except.ok newId, [ExtCall.createCall ep p.dict]) := by
  simp only [create, hroute, create_object, hok]

/-- Witness for C1: creating the concrete cable payload against `nbOK`. -/
theorem create_single_call_returns_id_witness :
    create nbOK (NetboxPayload.cable cbl9) =
      (Except.ok 7,
       [ExtCall.createCall "cables" (NetboxPayload.dict (NetboxPayload.cable cbl9))]) :=
  create_single_call_returns_id nbOK (NetboxPayload.cable cbl9) "cables" 7 rfl rfl

/-- Claim C2 counterexample: at the spec's scenario input the external update
call's body is the full 8-field `asdict` mapping, whose first entry is the id
field — not "exactly the 6 non-id fields". -/
theorem update_body_includes_id_counterexample :
    (update nbOK (NetboxPayload.device dev5)).2 =
      [ExtCall.getCall "devices" 5,
       ExtCall.updateCall "devices" 5
         [("id", Value.vint 5), ("site", Value.vint 1), ("device_type", Value.vint 2),
          ("device_role", Value.vint 3), ("name", Value.vstr "rtr1"),
          ("status", Value.vstr "active"), ("primary_ip4", Value.vnone),
          ("primary_ip6", Value.vnone)],
       ExtCall.saveCall "devices" 5] ∧
    ("id", Value.vint 5) ∈ NetboxPayload.dict (NetboxPayload.device dev5) :=
  ⟨rfl, List.Mem.head _⟩

/-- Claim C2 (amended): for every payload with a registered update route whose
id exists externally, `update` calls the external object's update with exactly
the fields of `payload.dict()` — all declared fields, the id and `None`-valued
fields included — and returns the `save()` result verbatim. -/
theorem update_applies_dict_returns_save (nb : Netbox) (p : NetboxPayload) (ep : String)
    (hroute : updateRoute p = some ep) (hex : nb.existing ep p.getId = true) :
    update nb p = (Except.ok (nb.saveResult ep p.getId),
      [ExtCall.getCall ep p.getId, ExtCall.updateCall ep p.getId p.dict,
       ExtCall.saveCall ep p.getId]) :=
  update_ok_eq nb p ep hroute hex

/-- Witness for C2: the scenario payload `dev5` against `nbOK`. -/
theorem update_applies_dict_returns_save_witness :
    update nbOK (NetboxPayload.device dev5) =
      (Except.ok true,
       [ExtCall.getCall "devices" 5,
        ExtCall.updateCall "devices" 5 (NetboxPayload.dict (NetboxPayload.device dev5)),
        ExtCall.saveCall "devices" 5]) :=
  update_applies_dict_returns_save nbOK (NetboxPayload.device dev5) "devices" rfl rfl

/-- Claim C3: when the payload's id is absent from the external system,
`update` fails with `NotFoundError` naming the id and the endpoint, and the
only external call made is the read-only get: no mutating call occurs. -/
theorem update_not_found (nb : Netbox) (p : NetboxPayload) (ep : String)
    (hroute : updateRoute p = some ep) (habs : nb.existing ep p.getId = false) :
    update nb p = (Except.error (NbError.notFoundError p.getId ep),
      [ExtCall.getCall ep p.getId]) ∧
    ∀ c ∈ (update nb p).2, c.isMutating = false := by
  have h : update nb p = (Except.error (NbError.notFoundError p.getId ep),
      [ExtCall.getCall ep p.getId]) := by
    simp only [update, hroute, update_object, habs, Bool.false_eq_true, if_false]
  refine ⟨h, ?_⟩
  rw [h]
  intro c hc
  rw [List.mem_singleton] at hc
  subst hc
  rfl

/-- Witness for C3: `dev5` against the external system where nothing exists. -/
theorem update_not_found_witness :
    update nbMissing (NetboxPayload.device dev5) =
      (Except.error (NbError.notFoundError 5 "devices"), [ExtCall.getCall "devices" 5]) ∧
    ∀ c ∈ (update nbMissing (NetboxPayload.device dev5)).2, c.isMutating = false :=
  update_not_found nbMissing (NetboxPayload.device dev5) "devices" rfl rfl

/-- Claim C4: for a payload variant without a registered route, the generic
function falls through to `single_dispatch_base` and fails with
`UnsupportedPayloadError` naming the variant, making no external call; this
holds for `create` and `update` alike. -/
theorem unregistered_variant_fails (nb : Netbox) (p : NetboxPayload) :
    (createRoute p = none →
      create nb p = (Except.error (NbError.unsupportedPayloadError p.variantName), [])) ∧
    (updateRoute p = none →
      update nb p = (Except.error (NbError.unsupportedPayloadError p.variantName), [])) := by
  constructor
  · intro h
    simp only [create, h, single_dispatch_base]
  · intro h
    simp only [update, h, single_dispatch_base]

/-- Witness for C4: `DevicePayload` has no create registration. -/
theorem unregistered_variant_fails_witness :
    create nbOK (NetboxPayload.device dev5) =
      (Except.error (NbError.unsupportedPayloadError "DevicePayload"), []) :=
  (unregistered_variant_fails nbOK (NetboxPayload.device dev5)).1 rfl

/-- Claim C5: when the external system rejects a routed create, the operation
fails with `ValidationError` carrying the original rejection message, after
exactly one external create call — the rejection is neither retried nor
swallowed. -/
theorem create_rejected_validation (nb : Netbox) (p : NetboxPayload) (ep : String)
    (msg : String) (hroute : createRoute p = some ep)
    (herr : nb.createResult ep p.dict = Except.error msg) :
    create nb p =
      (Except.error (NbError.validationError ("invalid NetboxPayload: " ++ msg)),
       [ExtCall.createCall ep p.dict]) := by
  simp only [create, hroute, create_object, herr]

/-- Witness for C5: the rejecting external system answers `cbl9`'s create. -/
theorem create_rejected_validation_witness :
    create nbRej (NetboxPayload.cable cbl9) =
      (Except.error (NbError.validationError ("invalid NetboxPayload: " ++ "bad field")),
       [ExtCall.createCall "cables" (NetboxPayload.dict (NetboxPayload.cable cbl9))]) :=
  create_rejected_validation nbRej (NetboxPayload.cable cbl9) "cables" "bad field" rfl rfl

/-- Claim C6: every variant with an update route carries a non-null id — its
mapping binds "id" to its mandatory `Int`-typed id value — while the
create-only payloads `AvailablePrefixPayload` and `AvailableIpPayload` omit an
id entirely: their mappings contain no "id" key. -/
theorem updatable_payloads_have_id :
    (∀ p : NetboxPayload, updateRoute p ≠ none →
      ("id", Value.vint p.getId) ∈ NetboxPayload.dict p) ∧
    (∀ a : AvailablePrefixPayload, a.dict.lookup "id" = none) ∧
    (∀ i : AvailableIpPayload, i.dict.lookup "id" = none) := by
  refine ⟨?_, ?_, ?_⟩
  · intro p _
    cases p <;> exact List.Mem.head _
  · intro a
    rfl
  · intro i
    rfl

/-- Witness for C6: the device variant is updatable and its mapping has id. -/
theorem updatable_payloads_have_id_witness :
    ("id", Value.vint 5) ∈ NetboxPayload.dict (NetboxPayload.device dev5) :=
  updatable_payloads_have_id.1 (NetboxPayload.device dev5) (by decide)

/-- Claim C7: round-trip — serializing any payload with `asdict` and then
reconstructing a payload of the same variant from the same fields of that
mapping yields a payload field-for-field equal to the original. -/
theorem dict_roundtrip :
    (∀ d : DevicePayload,
      DevicePayload.ofDict (NetboxPayload.dict (NetboxPayload.device d)) = some d) ∧
    (∀ c : CablePayload,
      CablePayload.ofDict (NetboxPayload.dict (NetboxPayload.cable c)) = some c) ∧
    (∀ a : AvailablePrefixPayload, AvailablePrefixPayload.ofDict a.dict = some a) ∧
    (∀ i : AvailableIpPayload, AvailableIpPayload.ofDict i.dict = some i) := by
  refine ⟨?_, ?_, ?_, ?_⟩
  · intro d
    obtain ⟨i, s, dt, dr, n, st, p4, p6⟩ := d
    cases n <;> cases st <;> cases p4 <;> cases p6 <;> rfl
  · intro c
    obtain ⟨i, s, d, a, b⟩ := c
    cases d <;>
      simp [CablePayload.ofDict, NetboxPayload.dict, optStrV, Value.asTermList,
        decodeTermList_map, Value.asInt, Value.asStr, Value.asOptStr, List.lookup]
  · intro a
    obtain ⟨l, d, ip⟩ := a
    cases ip <;> rfl
  · intro i
    obtain ⟨d, aoi, aot, st⟩ := i
    cases aot <;> cases st <;> rfl

/-- Claim C8 counterexample: `cbl9`'s mapping is not a mapping of field name
to scalar/primitive values — its termination fields hold lists of nested
mappings. -/
theorem dict_not_all_scalar :
    ((NetboxPayload.dict (NetboxPayload.cable cbl9)).all fun kv => kv.2.isScalar) = false :=
  rfl

/-- Claim C8 (amended): each variant's `asdict` mapping is keyed exactly by
its declared field names — no field is excluded, `None`-valued fields
included — and every value is scalar except the cable termination fields,
which hold lists of flat mappings of scalars. -/
theorem dict_shape :
    (∀ p : NetboxPayload, (NetboxPayload.dict p).map Prod.fst = p.fieldNames ∧
      ((NetboxPayload.dict p).all fun kv => kv.2.isScalarOrMapList) = true) ∧
    (∀ a : AvailablePrefixPayload, (a.dict.all fun kv => kv.2.isScalar) = true) ∧
    (∀ i : AvailableIpPayload, (i.dict.all fun kv => kv.2.isScalar) = true) := by
  refine ⟨?_, ?_, ?_⟩
  · intro p
    cases p with
    | device d =>
        obtain ⟨i, s, dt, dr, n, st, p4, p6⟩ := d
        refine ⟨rfl, ?_⟩
        cases n <;> cases st <;> cases p4 <;> cases p6 <;> rfl
    | cable c =>
        obtain ⟨i, s, d, a, b⟩ := c
        refine ⟨rfl, ?_⟩
        cases d <;>
          simp [NetboxPayload.dict, List.all_cons, Value.isScalarOrMapList, optStrV,
            Value.isScalar, termList_flat]
  · intro a
    obtain ⟨l, d, ip⟩ := a
    cases ip <;> rfl
  · intro i
    obtain ⟨d, aoi, aot, st⟩ := i
    cases aot <;> cases st <;> rfl

/-- Claim C9: every `NetboxPayload` subclass's `dict()` contains the key "id"
bound to the payload's id value, and consequently the body submitted to the
external update call contains the id alongside the other fields. -/
theorem dict_always_has_id :
    (∀ p : NetboxPayload, ("id", Value.vint p.getId) ∈ NetboxPayload.dict p) ∧
    (∀ (nb : Netbox) (p : NetboxPayload) (ep : String), updateRoute p = some ep →
      nb.existing ep p.getId = true →
      ∃ body, ExtCall.updateCall ep p.getId body ∈ (update nb p).2 ∧
        ("id", Value.vint p.getId) ∈ body) := by
  constructor
  · intro p
    cases p <;> exact List.Mem.head _
  · intro nb p ep hroute hex
    refine ⟨NetboxPayload.dict p, ?_, ?_⟩
    · rw [update_ok_eq nb p ep hroute hex]
      exact List.Mem.tail _ (List.Mem.head _)
    · cases p <;> exact List.Mem.head _

/-- Witness for C9: the scenario device payload against `nbOK`. -/
theorem dict_always_has_id_witness :
    ∃ body,
      ExtCall.updateCall "devices" 5 body ∈ (update nbOK (NetboxPayload.device dev5)).2 ∧
      ("id", Value.vint 5) ∈ body :=
  dict_always_has_id.2 nbOK (NetboxPayload.device dev5) "devices" rfl rfl

/-- Claim C10: constructor defaults — a termination built with only
`object_id` has `object_type` "dcim.interface"; an available-IP payload built
with only `description` and `assigned_object_id` has `assigned_object_type`
"dcim.interface" and `status` "active"; an available-prefix payload built
without `is_pool` has `is_pool` `False`. -/
theorem constructor_defaults :
    ({ object_id := 10 } : CableTerminationPayload).object_type = "dcim.interface" ∧
    ({ description := "ip", assigned_object_id := 3 }
        : AvailableIpPayload).assigned_object_type = some "dcim.interface" ∧
    ({ description := "ip", assigned_object_id := 3 } : AvailableIpPayload).status
      = some "active" ∧
    ({ prefix_length := 24, description := "p" } : AvailablePrefixPayload).is_pool
      = some false :=
  ⟨rfl, rfl, rfl, rfl⟩
